/-
Verification of the version-release evidence gate
(scripts/check_version_release_evidence.py).

The script is embedded shallowly: every external effect (git queries, the
GitHub evidence API, the monotonic clock, sleeping) is supplied by an `Env`
record, and `gate` mirrors `main` line by line, threading an explicit clock
and an effect trace.  The two polling loops are embedded with a fuel
parameter; `gate` hands each loop enough fuel that, with the poll interval
clamped to at least one second, the fuel can never run out on the timeout
paths that matter (proved below for discovery).
-/
import Mathlib

/-- Effects the script performs against the outside world, in order. -/
inductive Effect where
  | gitFetch : Effect
  | apiListRuns : Effect
  | apiGetRun : Nat → Effect
  | apiGetRelease : Effect
  | sleep : Nat → Effect
deriving DecidableEq, Repr

/-- A workflow-run JSON object, as read with `.get` (absent keys are `none`). -/
structure RunPayload where
  id : Option Nat := none
  status : Option String := none
  conclusion : Option String := none
  head_branch : Option String := none
  html_url : Option String := none
  message : Option String := none
deriving DecidableEq, Repr

/-- The payload of `GET /actions/workflows/release.yml/runs`. -/
structure RunsListPayload where
  workflow_runs : List RunPayload := []
  message : Option String := none
deriving DecidableEq, Repr

/-- The payload of `GET /releases/tags/<tag>`.  `draft` is the truthiness of
the `draft` key (an absent key is falsy in Python). -/
structure ReleasePayload where
  draft : Bool := false
  published_at : Option String := none
  html_url : Option String := none
  message : Option String := none
deriving DecidableEq, Repr

/-- Command-line arguments of the script (`argparse`, `type=int` tunables). -/
structure Args where
  eventName : String
  ref : String
  before : String := ""
  after : String
  repo : String
  runDiscoveryTimeoutSeconds : Int := 180
  runCompletionTimeoutSeconds : Int := 1800
  pollIntervalSeconds : Int := 15
deriving DecidableEq, Repr

/-- The external world: git state, environment variables, API responses
(indexed by attempt number), and how much monotonic time each call or sleep
consumes beyond the requested amount. -/
structure Env where
  currentVersion : String
  versionAt : String → Option String
  fetchTagsOk : Bool := true
  tagCommit : String → Option String
  isAncestor : String → String → Bool
  githubToken : Option String := none
  ghToken : Option String := none
  listRuns : Nat → Nat × RunsListPayload
  listDelay : Nat → Nat := fun _ => 0
  discSlack : Nat → Nat := fun _ => 0
  runResp : Nat → Nat × RunPayload
  runDelay : Nat → Nat := fun _ => 0
  compSlack : Nat → Nat := fun _ => 0
  releaseResp : Nat × ReleasePayload

/-- Result of one whole invocation: exit code, whether an exception escaped
`main` (git fetch failure), both output streams, and the effect trace. -/
structure GateResult where
  code : Nat
  raised : Bool := false
  stdout : List String := []
  stderr : List String := []
  effects : List Effect := []
deriving DecidableEq, Repr

/-- The all-zero "before" SHA sent for branch creation events. -/
def nullSha : String := "0000000000000000000000000000000000000000"

/-- Python `a or b` on optional strings: the empty string is falsy. -/
def pyOr (a : Option String) (b : String) : String :=
  match a with
  | some s => if s = "" then b else s
  | none => b

/-- Python rendering of an optional string inside an f-string (`None` text). -/
def optStr (o : Option String) : String :=
  match o with
  | some s => s
  | none => "None"

/-- The `fail` helper prefixes every reason with a CI error annotation. -/
def errLine (m : String) : String := "::error::" ++ m

def skipMsg : String := "version-release-guard: skipped (not a push to main/master)."

def unchangedMsg (cv : String) : String :=
  "version-release-guard: workspace version unchanged (" ++ cv ++
    "); no tag/release evidence required."

def bumpDetectedMsg (bv cv : String) : String :=
  "version-release-guard: detected workspace version bump " ++ bv ++ " -> " ++ cv ++ "."

def bumpUnknownMsg (cv : String) : String :=
  "version-release-guard: unable to resolve previous workspace version; " ++
    "enforcing release evidence for " ++ cv ++ "."

def bumpLine (bv : Option String) (cv : String) : String :=
  match bv with
  | some b => bumpDetectedMsg b cv
  | none => bumpUnknownMsg cv

def tagMissingMsg (cv tag : String) : String :=
  "Workspace version bumped to " ++ cv ++ ", but tag " ++ tag ++ " " ++
    "does not exist" ++ " on origin. Create/push the annotated tag and rerun CI."

def tagUnreachableMsg (tag tc after cv : String) : String :=
  "Tag " ++ tag ++ " exists but points to " ++ tc ++ ", which is " ++
    "not reachable" ++ " from " ++ after ++
    ". Tag must match the released main history for version " ++ cv ++ "."

def tokenMissingMsg : String :=
  "GITHUB_TOKEN is required to verify release workflow/release API evidence."

def listQueryErrMsg (status : Nat) (m : String) : String :=
  "Could not query release workflow runs from GitHub API (status " ++
    toString status ++ "): " ++ m

def discTimeoutMsg (tag : String) (d : Nat) : String :=
  "Tag " ++ tag ++ " exists, but " ++ "no Release workflow run was found for that tag within " ++
    toString d ++ "s."

def noRunIdMsg (tag url : String) : String :=
  "Release workflow for " ++ tag ++ " has no run id and cannot be polled. Run: " ++ url

def runQueryErrMsg (status : Nat) (m : String) : String :=
  "Could not query Release run status from GitHub API (status " ++
    toString status ++ "): " ++ m

def compTimeoutMsg (tag : String) (c : Nat) (st url : String) : String :=
  "Release workflow for " ++ tag ++ " did not complete within " ++ toString c ++
    "s (latest status=" ++ st ++ "). Run: " ++ url

def notSuccessfulMsg (tag st concl url : String) : String :=
  "Release workflow for " ++ tag ++ " is not successful (status=" ++ st ++
    ", conclusion=" ++ concl ++ "). Run: " ++ url

def releaseNotFoundMsg (tag : String) (status : Nat) (m : String) : String :=
  "Release for tag " ++ tag ++ " not found (status " ++ toString status ++ "): " ++ m

def notPublishedMsg (tag url : String) : String :=
  "Release for tag " ++ tag ++ " exists but is not published yet. Release URL: " ++ url

def passMsg (tag rel wf : String) : String :=
  "version-release-guard: release evidence verified for " ++ tag ++
    ". release=" ++ rel ++ " workflow=" ++ wf

/-- A terminal gate failure: exit code 1 plus one error annotation. -/
def failResult (out : List String) (eff : List Effect) (m : String) : GateResult :=
  { code := 1, raised := false, stdout := out, stderr := [errLine m], effects := eff }

/-- A successful exit (`skipped` or `passed`): exit code 0. -/
def passResult (out : List String) (eff : List Effect) : GateResult :=
  { code := 0, raised := false, stdout := out, stderr := [], effects := eff }

/-- The previous workspace version: resolved from the `before` revision only
when that revision is a real SHA (lines 127-129 of the script). -/
def beforeVersionOf (a : Args) (e : Env) : Option String :=
  if a.before ≠ "" ∧ a.before ≠ nullSha then e.versionAt a.before else none

/-- Poll interval after the `max(poll_interval_seconds, 1)` clamp. -/
def pollNat (a : Args) : Nat := (max a.pollIntervalSeconds 1).toNat

/-- Discovery timeout after the `max(run_discovery_timeout_seconds, 0)` clamp. -/
def discNat (a : Args) : Nat := (max a.runDiscoveryTimeoutSeconds 0).toNat

/-- Completion timeout after the `max(run_completion_timeout_seconds, 0)` clamp. -/
def compNat (a : Args) : Nat := (max a.runCompletionTimeoutSeconds 0).toNat

/-- Outcome of the run-discovery polling loop (lines 178-208). -/
inductive DiscResult where
  | fuelOut : List Effect → Nat → DiscResult
  | apiError : List Effect → Nat → Nat → String → DiscResult
  | timeout : List Effect → Nat → DiscResult
  | found : List Effect → Nat → RunPayload → DiscResult
deriving DecidableEq, Repr

/-- Effect trace carried by a discovery outcome. -/
def DiscResult.effs : DiscResult → List Effect
  | .fuelOut eff _ => eff
  | .apiError eff _ _ _ => eff
  | .timeout eff _ => eff
  | .found eff _ _ => eff

/-- The run-discovery polling loop.  One iteration: list the release
workflow runs (time advances by the call's latency), fail on a non-200
status, otherwise look for a run whose head branch equals the expected tag;
if none and the deadline has passed, time out, else sleep the poll interval
and retry.  `i` numbers the listing attempts. -/
def discoveryLoop (e : Env) (tag : String) (P dl : Nat) :
    Nat → List Effect → Nat → Nat → DiscResult
  | 0, eff, clock, _ => .fuelOut eff clock
  | fuel + 1, eff, clock, i =>
    let r := e.listRuns i
    let eff1 := eff ++ [Effect.apiListRuns]
    let c1 := clock + e.listDelay i
    if r.1 ≠ 200 then
      .apiError eff1 c1 r.1 ((r.2).message.getD "unknown error")
    else
      match (r.2).workflow_runs.find? (fun w => w.head_branch == some tag) with
      | some run => .found eff1 c1 run
      | none =>
        if dl ≤ c1 then .timeout eff1 c1
        else
          discoveryLoop e tag P dl fuel (eff1 ++ [Effect.sleep P])
            (c1 + P + e.discSlack i) (i + 1)

/-- Outcome of the run-completion polling loop (lines 220-238). -/
inductive CompResult where
  | fuelOut : List Effect → Nat → CompResult
  | apiError : List Effect → Nat → Nat → String → CompResult
  | done : List Effect → Nat → RunPayload → CompResult
deriving DecidableEq, Repr

/-- Effect trace carried by a completion outcome. -/
def CompResult.effs : CompResult → List Effect
  | .fuelOut eff _ => eff
  | .apiError eff _ _ _ => eff
  | .done eff _ _ => eff

/-- The run-completion polling loop.  While the deadline has not passed:
sleep the poll interval, re-fetch the run by id, fail on a non-200 status,
stop once the status is `completed`.  When the deadline check fails the loop
exits with the latest payload (the caller inspects its status). -/
def completionLoop (e : Env) (rid : Nat) (P dl : Nat) :
    Nat → List Effect → Nat → Nat → RunPayload → CompResult
  | 0, eff, clock, _, _ => .fuelOut eff clock
  | fuel + 1, eff, clock, i, cur =>
    if dl ≤ clock then .done eff clock cur
    else
      let r := e.runResp i
      let eff1 := eff ++ [Effect.sleep P, Effect.apiGetRun rid]
      let c1 := clock + P + e.compSlack i + e.runDelay i
      if r.1 ≠ 200 then
        .apiError eff1 c1 r.1 ((r.2).message.getD "unknown error")
      else if (r.2).status = some "completed" then .done eff1 c1 r.2
      else completionLoop e rid P dl fuel eff1 c1 (i + 1) r.2

/-- Lines 245-272: the discovered (and by now completed) run must have
conclusion `success`; then the release for the tag is queried once and must
be a 200, non-draft, published record.  On success the verdict line carries
the release and workflow URLs. -/
def concludeRun (e : Env) (tag : String) (out : List String) (eff : List Effect)
    (run : RunPayload) : GateResult :=
  if run.conclusion ≠ some "success" then
    failResult out eff
      (notSuccessfulMsg tag (optStr run.status) (optStr run.conclusion) (optStr run.html_url))
  else
    let r := e.releaseResp
    let eff1 := eff ++ [Effect.apiGetRelease]
    if r.1 ≠ 200 then
      failResult out eff1 (releaseNotFoundMsg tag r.1 ((r.2).message.getD "unknown error"))
    else if (r.2).draft = true ∨ (r.2).published_at = none then
      failResult out eff1 (notPublishedMsg tag ((r.2).html_url.getD "<missing>"))
    else
      passResult (out ++ [passMsg tag (optStr (r.2).html_url) (optStr run.html_url)]) eff1

/-- Lines 174-272: clamp the tunables, discover the run for the tag, poll it
to completion when needed, then check conclusion and release publication. -/
def gateEvidence (a : Args) (e : Env) (tag : String) (out : List String)
    (eff : List Effect) : GateResult :=
  let P := pollNat a
  let D := discNat a
  let C := compNat a
  match discoveryLoop e tag P D (D + 2) eff 0 0 with
  | .fuelOut eff1 _ => { code := 99, raised := true, stdout := out, effects := eff1 }
  | .apiError eff1 _ s m => failResult out eff1 (listQueryErrMsg s m)
  | .timeout eff1 _ => failResult out eff1 (discTimeoutMsg tag D)
  | .found eff1 c1 run =>
    if run.status = some "completed" then concludeRun e tag out eff1 run
    else
      match run.id with
      | none => failResult out eff1 (noRunIdMsg tag (optStr run.html_url))
      | some rid =>
        match completionLoop e rid P (c1 + C) (C + 2) eff1 c1 0 run with
        | .fuelOut eff2 _ => { code := 99, raised := true, stdout := out, effects := eff2 }
        | .apiError eff2 _ s m => failResult out eff2 (runQueryErrMsg s m)
        | .done eff2 _ fr =>
          if fr.status = some "completed" then concludeRun e tag out eff2 fr
          else
            failResult out eff2
              (compTimeoutMsg tag C (optStr fr.status) (optStr fr.html_url))

/-- Lines 150-172: refresh tags, resolve the expected tag to a commit, check
ancestry against the pushed head, then require a bearer token before any
API traffic. -/
def gateAfterFetch (a : Args) (e : Env) : GateResult :=
  let cv := e.currentVersion
  let tag := "v" ++ cv
  let out := [bumpLine (beforeVersionOf a e) cv]
  let eff := [Effect.gitFetch]
  match e.tagCommit tag with
  | none => failResult out eff (tagMissingMsg cv tag)
  | some tc =>
    if e.isAncestor tc a.after then
      if pyOr e.githubToken (pyOr e.ghToken "") = "" then
        failResult out eff tokenMissingMsg
      else gateEvidence a e tag out eff
    else failResult out eff (tagUnreachableMsg tag tc a.after cv)

/-- The whole of `main` (lines 90-272).  Non-push events and non-protected
refs skip with exit 0 before any version is read; an unchanged version skips
with exit 0 before any network traffic; a failing `git fetch` raises. -/
def gate (a : Args) (e : Env) : GateResult :=
  if a.eventName = "push" ∧ (a.ref = "refs/heads/main" ∨ a.ref = "refs/heads/master") then
    if beforeVersionOf a e = some e.currentVersion then
      passResult [unchangedMsg e.currentVersion] []
    else
      if e.fetchTagsOk then gateAfterFetch a e
      else
        { code := 1, raised := true,
          stdout := [bumpLine (beforeVersionOf a e) e.currentVersion],
          effects := [Effect.gitFetch] }
  else passResult [skipMsg] []

/-! Concrete fixtures used to instantiate the theorems below on closed
inputs.  `argsTiny` keeps the timeouts small so that closed evaluation of
`gate` stays cheap. -/

/-- A completed, successful run for tag v1.2.3. -/
def runOk : RunPayload :=
  { id := some 7, status := some "completed", conclusion := some "success",
    head_branch := some "v1.2.3", html_url := some "https://github.test/runs/7" }

/-- A completed run for tag v1.2.3 whose conclusion is `failure`. -/
def runFailed : RunPayload :=
  { id := some 9, status := some "completed", conclusion := some "failure",
    head_branch := some "v1.2.3", html_url := some "https://github.test/runs/9" }

/-- A still-running run for tag v1.2.3. -/
def runInProgress : RunPayload :=
  { id := some 11, status := some "in_progress", conclusion := none,
    head_branch := some "v1.2.3", html_url := some "https://github.test/runs/11" }

/-- A published, non-draft release record. -/
def relOk : ReleasePayload :=
  { draft := false, published_at := some "2025-01-01T00:00:00Z",
    html_url := some "https://github.test/releases/v1.2.3" }

/-- A healthy world: bump 1.0.0 -> 1.2.3, tag present and reachable, token
set, run completed successfully, release published. -/
def envBase : Env :=
  { currentVersion := "1.2.3"
    versionAt := fun _ => some "1.0.0"
    fetchTagsOk := true
    tagCommit := fun t => if t = "v1.2.3" then some "abc123" else none
    isAncestor := fun _ _ => true
    githubToken := some "tok"
    ghToken := none
    listRuns := fun _ => (200, { workflow_runs := [runOk] })
    runResp := fun _ => (200, runOk)
    releaseResp := (200, relOk) }

/-- Like `envBase` but with no credential in the environment. -/
def envNoTok : Env := { envBase with githubToken := none, ghToken := none }

/-- Like `envBase` but the expected tag does not resolve. -/
def envNoTag : Env := { envBase with tagCommit := fun _ => none }

/-- Like `envBase` but the tag commit is not an ancestor of the push head. -/
def envNotAnc : Env := { envBase with isAncestor := fun _ _ => false }

/-- Like `envBase` but with neither tag nor credential. -/
def envNoTagNoTok : Env :=
  { envBase with tagCommit := fun _ => none, githubToken := none, ghToken := none }

/-- Like `envBase` but the release endpoint answers 201 (a 2xx that is not
200) with a published record. -/
def env201 : Env := { envBase with releaseResp := (201, relOk) }

/-- Like `envBase` but run listing always answers HTTP 500. -/
def env500 : Env :=
  { envBase with listRuns := fun _ => (500, { workflow_runs := [], message := some "boom" }) }

/-- Like `envBase` but fetching a run by id always answers HTTP 500. -/
def envRun500 : Env :=
  { envBase with runResp := fun _ => (500, { message := some "kapow" }) }

/-- Like `envBase` but the run listing never contains any run. -/
def envNoRuns : Env :=
  { envBase with listRuns := fun _ => (200, { workflow_runs := [] }) }

/-- Like `envBase` but the matching run only appears on the second listing
attempt, forcing one sleep. -/
def envSleepy : Env :=
  { envBase with listRuns := fun j =>
      if j = 0 then (200, { workflow_runs := [] }) else (200, { workflow_runs := [runOk] }) }

/-- Like `envBase` but the discovered run is completed with a `failure`
conclusion. -/
def envRunFailed : Env :=
  { envBase with
      listRuns := fun _ => (200, { workflow_runs := [runFailed] })
      runResp := fun _ => (200, runFailed) }

/-- A push to main with small timeouts. -/
def argsTiny : Args :=
  { eventName := "push", ref := "refs/heads/main", before := "beforesha",
    after := "aftersha", repo := "octo/trust",
    runDiscoveryTimeoutSeconds := 2, runCompletionTimeoutSeconds := 2,
    pollIntervalSeconds := 1 }

/-- A pull-request event (the gate does not apply). -/
def argsPR : Args :=
  { eventName := "pull_request", ref := "refs/heads/main", before := "beforesha",
    after := "aftersha", repo := "octo/trust" }

/-- A push to main with a poll interval configured below one second. -/
def argsNeg : Args := { argsTiny with pollIntervalSeconds := -5 }

/-! Substring infrastructure: messages are built by `++`, and "the reason
mentions X" is stated as `X.data <:+: msg.data`. -/

theorem sdata (a b : String) : (a ++ b).data = a.data ++ b.data := rfl

theorem substr_build (a b c : String) : b.data <:+: (a ++ b ++ c).data :=
  ⟨a.data, c.data, by rw [sdata, sdata]⟩

theorem substr_end (a b : String) : b.data <:+: (a ++ b).data :=
  ⟨a.data, [], by rw [sdata, List.append_nil]⟩

theorem substr_ext (s t : String) (m : List Char) (h : m <:+: s.data) :
    m <:+: (s ++ t).data := by
  obtain ⟨u, v, huv⟩ := h
  exact ⟨u, v ++ t.data, by rw [sdata, ← huv]; simp⟩

theorem substr_extL (s t : String) (m : List Char) (h : m <:+: t.data) :
    m <:+: (s ++ t).data := by
  obtain ⟨u, v, huv⟩ := h
  exact ⟨s.data ++ u, v, by rw [sdata, ← huv]; simp⟩

/-! Counting listing attempts in an effect trace. -/

/-- Number of workflow-run listing requests recorded in a trace. -/
def listCallCount : List Effect → Nat
  | [] => 0
  | Effect.apiListRuns :: rest => listCallCount rest + 1
  | _ :: rest => listCallCount rest

theorem listCallCount_append (l r : List Effect) :
    listCallCount (l ++ r) = listCallCount l + listCallCount r := by
  induction l with
  | nil => simp [listCallCount]
  | cons x rest ih =>
    cases x <;> simp [listCallCount, ih, Nat.add_assoc, Nat.add_comm, Nat.add_left_comm]

/-! Shape of the traces produced by the two loops: a loop only appends
listing requests and sleeps (discovery), or run fetches and sleeps
(completion), each sleep of exactly the clamped interval. -/

theorem disc_effs_shape (e : Env) (tag : String) (P dl : Nat) :
    ∀ fuel eff clock i, ∀ x ∈ (discoveryLoop e tag P dl fuel eff clock i).effs,
      x ∈ eff ∨ x = Effect.apiListRuns ∨ x = Effect.sleep P := by
  intro fuel
  induction fuel with
  | zero => intro eff clock i x hx; exact Or.inl hx
  | succ n ih =>
    intro eff clock i x hx
    rw [discoveryLoop] at hx
    by_cases h200 : (e.listRuns i).1 ≠ 200
    · rw [if_pos h200] at hx
      simp only [DiscResult.effs, List.mem_append, List.mem_singleton] at hx
      rcases hx with h | h
      · exact Or.inl h
      · exact Or.inr (Or.inl h)
    · rw [if_neg h200] at hx
      cases hfind : ((e.listRuns i).2).workflow_runs.find?
          (fun w => w.head_branch == some tag) with
      | some run =>
        rw [hfind] at hx
        simp only [DiscResult.effs, List.mem_append, List.mem_singleton] at hx
        rcases hx with h | h
        · exact Or.inl h
        · exact Or.inr (Or.inl h)
      | none =>
        rw [hfind] at hx
        by_cases hdl : dl ≤ clock + e.listDelay i
        · rw [if_pos hdl] at hx
          simp only [DiscResult.effs, List.mem_append, List.mem_singleton] at hx
          rcases hx with h | h
          · exact Or.inl h
          · exact Or.inr (Or.inl h)
        · rw [if_neg hdl] at hx
          rcases ih _ _ _ x hx with h | h
          · simp only [List.append_assoc, List.mem_append, List.mem_singleton] at h
            rcases h with h | h | h
            · exact Or.inl h
            · exact Or.inr (Or.inl h)
            · exact Or.inr (Or.inr h)
          · exact Or.inr h

theorem comp_effs_shape (e : Env) (rid P dl : Nat) :
    ∀ fuel eff clock i cur, ∀ x ∈ (completionLoop e rid P dl fuel eff clock i cur).effs,
      x ∈ eff ∨ x = Effect.apiGetRun rid ∨ x = Effect.sleep P := by
  intro fuel
  induction fuel with
  | zero => intro eff clock i cur x hx; exact Or.inl hx
  | succ n ih =>
    intro eff clock i cur x hx
    rw [completionLoop] at hx
    by_cases hdl : dl ≤ clock
    · rw [if_pos hdl] at hx
      exact Or.inl hx
    · rw [if_neg hdl] at hx
      by_cases h200 : (e.runResp i).1 ≠ 200
      · rw [if_pos h200] at hx
        simp only [CompResult.effs, List.mem_append, List.mem_cons,
          List.mem_singleton, List.not_mem_nil, or_false] at hx
        rcases hx with h | h | h
        · exact Or.inl h
        · exact Or.inr (Or.inr h)
        · exact Or.inr (Or.inl h)
      · rw [if_neg h200] at hx
        by_cases hdone : ((e.runResp i).2).status = some "completed"
        · rw [if_pos hdone] at hx
          simp only [CompResult.effs, List.mem_append, List.mem_cons,
            List.mem_singleton, List.not_mem_nil, or_false] at hx
          rcases hx with h | h | h
          · exact Or.inl h
          · exact Or.inr (Or.inr h)
          · exact Or.inr (Or.inl h)
        · rw [if_neg hdone] at hx
          rcases ih _ _ _ _ x hx with h | h
          · simp only [List.mem_append, List.mem_cons, List.mem_singleton,
              List.not_mem_nil, or_false] at h
            rcases h with h | h | h
            · exact Or.inl h
            · exact Or.inr (Or.inr h)
            · exact Or.inr (Or.inl h)
          · exact Or.inr h

/-! Reachability rewrites through the sequential pipeline. -/

theorem gate_reaches_fetch (a : Args) (e : Env)
    (h1 : a.eventName = "push")
    (h2 : a.ref = "refs/heads/main" ∨ a.ref = "refs/heads/master")
    (h3 : beforeVersionOf a e ≠ some e.currentVersion)
    (h4 : e.fetchTagsOk = true) :
    gate a e = gateAfterFetch a e := by
  unfold gate
  rw [if_pos ⟨h1, h2⟩, if_neg h3, if_pos h4]

theorem fetch_reaches_evidence (a : Args) (e : Env) (tc : String)
    (h5 : e.tagCommit ("v" ++ e.currentVersion) = some tc)
    (h6 : e.isAncestor tc a.after = true)
    (h7 : pyOr e.githubToken (pyOr e.ghToken "") ≠ "") :
    gateAfterFetch a e =
      gateEvidence a e ("v" ++ e.currentVersion)
        [bumpLine (beforeVersionOf a e) e.currentVersion] [Effect.gitFetch] := by
  simp only [gateAfterFetch, h5, h6, if_true, if_neg h7]

/-- The clamped poll interval is at least one second. -/
theorem pollNat_pos (a : Args) : 1 ≤ pollNat a := by
  unfold pollNat
  have hmax : (1 : Int) ≤ max a.pollIntervalSeconds 1 := le_max_right _ _
  omega

/-- Half of the ceiling-division induction step: advancing the clock by at
least one full poll interval lowers the remaining attempt budget by one. -/
theorem ceil_step (P A B : Nat) (hP : 1 ≤ P) (hA : 1 ≤ A)
    (hcase : B = 0 ∨ B + P ≤ A) :
    (B + P - 1) / P + 1 ≤ (A + P - 1) / P := by
  have hP0 : 0 < P := hP
  rcases hcase with h0 | hBP
  · subst h0
    have hz : (0 + P - 1) / P = 0 := Nat.div_eq_of_lt (by omega)
    rw [hz]
    rw [Nat.one_le_div_iff hP0]
    omega
  · have step : (B + P - 1) / P + 1 = (B + P - 1 + P) / P := (Nat.add_div_right _ hP0).symm
    rw [step]
    exact Nat.div_le_div_right (by omega)

/-- Fuel budget handed to the discovery loop by `gateEvidence` covers the
worst-case attempt count. -/
theorem disc_fuel_enough (D P : Nat) (hP : 1 ≤ P) : (D + P - 1) / P + 1 ≤ D + 2 := by
  have h1 : (D + P - 1) / P < D + 2 := by
    rw [Nat.div_lt_iff_lt_mul (by omega : 0 < P)]
    have h2 : D ≤ D * P := Nat.le_mul_of_pos_right D (by omega)
    have h3 : (D + 2) * P = D * P + 2 * P := by ring
    omega
  exact Nat.succ_le_of_lt h1

/-- Core of the discovery-stage bound: when every listing response succeeds
with status 200 and never contains a run for the expected tag, the loop
reaches the timeout outcome (it cannot run out of fuel within its budget),
and the number of listing attempts it adds to the trace is at most
the ceiling of the remaining deadline over the poll interval, plus one. -/
theorem disc_no_match_times_out (e : Env) (tag : String) (P dl : Nat) (hP : 1 ≤ P)
    (hok : ∀ j, (e.listRuns j).1 = 200)
    (hno : ∀ j, ((e.listRuns j).2).workflow_runs.find?
      (fun w => w.head_branch == some tag) = none) :
    ∀ fuel clock i eff, (dl - clock + P - 1) / P + 1 ≤ fuel →
      ∃ eff2 c2, discoveryLoop e tag P dl fuel eff clock i = DiscResult.timeout eff2 c2 ∧
        listCallCount eff2 ≤ listCallCount eff + ((dl - clock + P - 1) / P + 1) := by
  intro fuel
  induction fuel with
  | zero => intro clock i eff h; exact absurd h (Nat.not_succ_le_zero _)
  | succ n ih =>
    intro clock i eff hfuel
    rw [discoveryLoop]
    have h200 : ¬((e.listRuns i).1 ≠ 200) := by rw [hok i]; simp
    rw [if_neg h200, hno i]
    by_cases hdl : dl ≤ clock + e.listDelay i
    · rw [if_pos hdl]
      refine ⟨_, _, rfl, ?_⟩
      rw [listCallCount_append]
      simp only [listCallCount]
      exact Nat.add_le_add_left (Nat.succ_le_succ (Nat.zero_le _)) _
    · rw [if_neg hdl]
      have hlt : clock + e.listDelay i < dl := Nat.lt_of_not_le hdl
      have hA : 1 ≤ dl - clock := by omega
      have hcase : dl - (clock + e.listDelay i + P + e.discSlack i) = 0 ∨
          dl - (clock + e.listDelay i + P + e.discSlack i) + P ≤ dl - clock := by omega
      have hkey := ceil_step P (dl - clock)
        (dl - (clock + e.listDelay i + P + e.discSlack i)) hP hA hcase
      obtain ⟨eff2, c2, heq, hcount⟩ :=
        ih (clock + e.listDelay i + P + e.discSlack i) (i + 1)
          (eff ++ [Effect.apiListRuns] ++ [Effect.sleep P])
          (le_trans hkey (Nat.succ_le_succ_iff.mp hfuel))
      refine ⟨eff2, c2, heq, ?_⟩
      rw [listCallCount_append, listCallCount_append] at hcount
      simp only [listCallCount] at hcount
      have hkey2 := hkey
      linarith

/-! Claim theorems. -/

/-- C7: for every invocation whose event kind is not `push` or whose ref is
not a protected branch (`refs/heads/main`, `refs/heads/master`), the verdict
is skipped with exit status 0 and the effect trace is empty: no git fetch
and no evidence-API request ever occurs. -/
theorem c7_not_protected_push_skips (a : Args) (e : Env)
    (h : a.eventName ≠ "push" ∨ (a.ref ≠ "refs/heads/main" ∧ a.ref ≠ "refs/heads/master")) :
    (gate a e).code = 0 ∧ (gate a e).stdout = [skipMsg] ∧ (gate a e).effects = [] := by
  have hg : gate a e = passResult [skipMsg] [] := by
    unfold gate
    rw [if_neg]
    rintro ⟨hev, href⟩
    rcases h with h | ⟨hm, hms⟩
    · exact h hev
    · rcases href with h' | h'
      · exact hm h'
      · exact hms h'
  rw [hg]
  exact ⟨rfl, rfl, rfl⟩

/-- Closed instance of C7: a pull-request event skips with no effects. -/
theorem c7_witness :
    (gate argsPR envBase).code = 0 ∧ (gate argsPR envBase).stdout = [skipMsg] ∧
      (gate argsPR envBase).effects = [] :=
  c7_not_protected_push_skips argsPR envBase (Or.inl (by decide))

/-- C4: when the gate applies (push to a protected branch whose before
version does not resolve to the current version) and the expected tag
`v<version>` does not resolve in the refreshed tag set, the verdict is
failed with a reason mentioning that the tag does not exist. -/
theorem c4_tag_missing_fails (a : Args) (e : Env)
    (h1 : a.eventName = "push")
    (h2 : a.ref = "refs/heads/main" ∨ a.ref = "refs/heads/master")
    (h3 : beforeVersionOf a e ≠ some e.currentVersion)
    (h4 : e.fetchTagsOk = true)
    (h5 : e.tagCommit ("v" ++ e.currentVersion) = none) :
    (gate a e).code = 1 ∧ (gate a e).raised = false ∧
    (gate a e).stderr =
      [errLine (tagMissingMsg e.currentVersion ("v" ++ e.currentVersion))] ∧
    ("does not exist").data <:+:
      (tagMissingMsg e.currentVersion ("v" ++ e.currentVersion)).data := by
  rw [gate_reaches_fetch a e h1 h2 h3 h4]
  have hfetch : gateAfterFetch a e =
      failResult [bumpLine (beforeVersionOf a e) e.currentVersion] [Effect.gitFetch]
        (tagMissingMsg e.currentVersion ("v" ++ e.currentVersion)) := by
    simp only [gateAfterFetch, h5]
  rw [hfetch]
  refine ⟨rfl, rfl, rfl, ?_⟩
  unfold tagMissingMsg
  exact substr_build _ _ _

/-- Closed instance of C4: missing tag refuses with the expected reason. -/
theorem c4_witness :
    (gate argsTiny envNoTag).code = 1 ∧ (gate argsTiny envNoTag).raised = false ∧
    (gate argsTiny envNoTag).stderr = [errLine (tagMissingMsg "1.2.3" "v1.2.3")] ∧
    ("does not exist").data <:+: (tagMissingMsg "1.2.3" "v1.2.3").data :=
  c4_tag_missing_fails argsTiny envNoTag rfl (Or.inl rfl) (by decide) rfl rfl

/-- C5: when the gate applies and the expected tag resolves to a commit that
is not an ancestor of the pushed head, the verdict is failed with a reason
mentioning that the tag is not reachable. -/
theorem c5_tag_unreachable_fails (a : Args) (e : Env)
    (h1 : a.eventName = "push")
    (h2 : a.ref = "refs/heads/main" ∨ a.ref = "refs/heads/master")
    (h3 : beforeVersionOf a e ≠ some e.currentVersion)
    (h4 : e.fetchTagsOk = true)
    (tc : String)
    (h5 : e.tagCommit ("v" ++ e.currentVersion) = some tc)
    (h6 : e.isAncestor tc a.after = false) :
    (gate a e).code = 1 ∧ (gate a e).raised = false ∧
    (gate a e).stderr =
      [errLine (tagUnreachableMsg ("v" ++ e.currentVersion) tc a.after e.currentVersion)] ∧
    ("not reachable").data <:+:
      (tagUnreachableMsg ("v" ++ e.currentVersion) tc a.after e.currentVersion).data := by
  rw [gate_reaches_fetch a e h1 h2 h3 h4]
  have hfetch : gateAfterFetch a e =
      failResult [bumpLine (beforeVersionOf a e) e.currentVersion] [Effect.gitFetch]
        (tagUnreachableMsg ("v" ++ e.currentVersion) tc a.after e.currentVersion) := by
    simp only [gateAfterFetch, h5, h6, Bool.false_eq_true, if_false]
  rw [hfetch]
  refine ⟨rfl, rfl, rfl, ?_⟩
  unfold tagUnreachableMsg
  apply substr_ext
  apply substr_ext
  apply substr_ext
  apply substr_ext
  apply substr_ext
  exact substr_end _ _

/-- Closed instance of C5: an unreachable tag refuses with the expected
reason. -/
theorem c5_witness :
    (gate argsTiny envNotAnc).code = 1 ∧ (gate argsTiny envNotAnc).raised = false ∧
    (gate argsTiny envNotAnc).stderr =
      [errLine (tagUnreachableMsg "v1.2.3" "abc123" "aftersha" "1.2.3")] ∧
    ("not reachable").data <:+:
      (tagUnreachableMsg "v1.2.3" "abc123" "aftersha" "1.2.3").data :=
  c5_tag_unreachable_fails argsTiny envNotAnc rfl (Or.inl rfl) (by decide) rfl "abc123" rfl rfl

/-- C10: tag resolution and ancestry run before the credential check, so an
applicable invocation whose tag is missing or unreachable fails with the
corresponding tag reason regardless of any credential hypothesis, and its
trace is exactly the git fetch: no evidence-API request is issued. -/
theorem c10_tag_checks_precede_credentials (a : Args) (e : Env)
    (h1 : a.eventName = "push")
    (h2 : a.ref = "refs/heads/main" ∨ a.ref = "refs/heads/master")
    (h3 : beforeVersionOf a e ≠ some e.currentVersion)
    (h4 : e.fetchTagsOk = true) :
    (e.tagCommit ("v" ++ e.currentVersion) = none →
      (gate a e).code = 1 ∧
      (gate a e).stderr =
        [errLine (tagMissingMsg e.currentVersion ("v" ++ e.currentVersion))] ∧
      (gate a e).effects = [Effect.gitFetch]) ∧
    (∀ tc, e.tagCommit ("v" ++ e.currentVersion) = some tc →
      e.isAncestor tc a.after = false →
      (gate a e).code = 1 ∧
      (gate a e).stderr =
        [errLine (tagUnreachableMsg ("v" ++ e.currentVersion) tc a.after e.currentVersion)] ∧
      (gate a e).effects = [Effect.gitFetch]) := by
  rw [gate_reaches_fetch a e h1 h2 h3 h4]
  constructor
  · intro h5
    have hfetch : gateAfterFetch a e =
        failResult [bumpLine (beforeVersionOf a e) e.currentVersion] [Effect.gitFetch]
          (tagMissingMsg e.currentVersion ("v" ++ e.currentVersion)) := by
      simp only [gateAfterFetch, h5]
    rw [hfetch]
    exact ⟨rfl, rfl, rfl⟩
  · intro tc h5 h6
    have hfetch : gateAfterFetch a e =
        failResult [bumpLine (beforeVersionOf a e) e.currentVersion] [Effect.gitFetch]
          (tagUnreachableMsg ("v" ++ e.currentVersion) tc a.after e.currentVersion) := by
      simp only [gateAfterFetch, h5, h6, Bool.false_eq_true, if_false]
    rw [hfetch]
    exact ⟨rfl, rfl, rfl⟩

/-- Closed instance of C10: with no credential at all in the environment,
the missing-tag verdict is produced and no API request appears in the
trace. -/
theorem c10_witness :
    (gate argsTiny envNoTagNoTok).code = 1 ∧
    (gate argsTiny envNoTagNoTok).stderr = [errLine (tagMissingMsg "1.2.3" "v1.2.3")] ∧
    (gate argsTiny envNoTagNoTok).effects = [Effect.gitFetch] :=
  (c10_tag_checks_precede_credentials argsTiny envNoTagNoTok rfl (Or.inl rfl)
    (by decide) rfl).1 rfl

/-- C6 counterexample: a missing credential and an evidence-based failure
(missing tag) produce the very same exit signaling: exit code 1, no raised
exception, one stderr line through the same error-annotation routine.  They
differ only in message text, so no exit code or error category
distinguishes them. -/
theorem c6_counterexample :
    (gate argsTiny envNoTok).code = 1 ∧
    (gate argsTiny envNoTag).code = 1 ∧
    (gate argsTiny envNoTok).code = (gate argsTiny envNoTag).code ∧
    (gate argsTiny envNoTok).raised = (gate argsTiny envNoTag).raised ∧
    (gate argsTiny envNoTok).stderr = [errLine tokenMissingMsg] ∧
    (gate argsTiny envNoTag).stderr = [errLine (tagMissingMsg "1.2.3" "v1.2.3")] :=
  ⟨rfl, rfl, rfl, rfl, rfl, rfl⟩

/-- C6 as amended: when an applicable invocation passes tag and ancestry
verification with no bearer credential (both recognized variables empty or
unset), the gate stops before any API request with exit code 1 and the
GITHUB_TOKEN error annotation — the same exit code and error category as
evidence-based failures, distinguishable only by the message text. -/
theorem c6_missing_token_fails (a : Args) (e : Env)
    (h1 : a.eventName = "push")
    (h2 : a.ref = "refs/heads/main" ∨ a.ref = "refs/heads/master")
    (h3 : beforeVersionOf a e ≠ some e.currentVersion)
    (h4 : e.fetchTagsOk = true)
    (tc : String)
    (h5 : e.tagCommit ("v" ++ e.currentVersion) = some tc)
    (h6 : e.isAncestor tc a.after = true)
    (h7 : pyOr e.githubToken (pyOr e.ghToken "") = "") :
    (gate a e).code = 1 ∧ (gate a e).raised = false ∧
    (gate a e).stderr = [errLine tokenMissingMsg] ∧
    (gate a e).effects = [Effect.gitFetch] := by
  rw [gate_reaches_fetch a e h1 h2 h3 h4]
  have hfetch : gateAfterFetch a e =
      failResult [bumpLine (beforeVersionOf a e) e.currentVersion] [Effect.gitFetch]
        tokenMissingMsg := by
    simp only [gateAfterFetch, h5, h6, if_true, if_pos h7]
  rw [hfetch]
  exact ⟨rfl, rfl, rfl, rfl⟩

/-- Closed instance of the amended C6. -/
theorem c6_witness :
    (gate argsTiny envNoTok).code = 1 ∧ (gate argsTiny envNoTok).raised = false ∧
    (gate argsTiny envNoTok).stderr = [errLine tokenMissingMsg] ∧
    (gate argsTiny envNoTok).effects = [Effect.gitFetch] :=
  c6_missing_token_fails argsTiny envNoTok rfl (Or.inl rfl) (by decide) rfl "abc123" rfl rfl rfl

/-- Membership of the release query in a discovery trace comes only from the
initial trace: the loop itself never queries the release endpoint. -/
theorem disc_no_release (e : Env) (tag : String) (P dl fuel clock i : Nat)
    (eff : List Effect)
    (h : Effect.apiGetRelease ∈ (discoveryLoop e tag P dl fuel eff clock i).effs) :
    Effect.apiGetRelease ∈ eff := by
  rcases disc_effs_shape e tag P dl fuel eff clock i Effect.apiGetRelease h with h' | h' | h'
  · exact h'
  · exact Effect.noConfusion h'
  · exact Effect.noConfusion h'

/-- Membership of the release query in a completion trace comes only from
the initial trace: the loop itself never queries the release endpoint. -/
theorem comp_no_release (e : Env) (rid P dl fuel clock i : Nat)
    (eff : List Effect) (cur : RunPayload)
    (h : Effect.apiGetRelease ∈ (completionLoop e rid P dl fuel eff clock i cur).effs) :
    Effect.apiGetRelease ∈ eff := by
  rcases comp_effs_shape e rid P dl fuel eff clock i cur Effect.apiGetRelease h
    with h' | h' | h'
  · exact h'
  · exact Effect.noConfusion h'
  · exact Effect.noConfusion h'

/-- C3: whenever the discovered workflow run reaches status `completed` with
a conclusion other than `success` — either already completed at discovery or
completed during completion polling — the verdict is failed, the single
failure reason carries both the observed conclusion and the run URL, and
the release endpoint is never queried. -/
theorem c3_unsuccessful_run_fails_without_release_query (a : Args) (e : Env)
    (h1 : a.eventName = "push")
    (h2 : a.ref = "refs/heads/main" ∨ a.ref = "refs/heads/master")
    (h3 : beforeVersionOf a e ≠ some e.currentVersion)
    (h4 : e.fetchTagsOk = true)
    (tc : String)
    (h5 : e.tagCommit ("v" ++ e.currentVersion) = some tc)
    (h6 : e.isAncestor tc a.after = true)
    (h7 : pyOr e.githubToken (pyOr e.ghToken "") ≠ "")
    (eff1 : List Effect) (c1 : Nat) (run : RunPayload)
    (h8 : discoveryLoop e ("v" ++ e.currentVersion) (pollNat a) (discNat a)
        (discNat a + 2) [Effect.gitFetch] 0 0 = DiscResult.found eff1 c1 run)
    (concl : String) (hconcl : concl ≠ "success")
    (hcase :
      (run.status = some "completed" ∧ run.conclusion = some concl) ∨
      (run.status ≠ some "completed" ∧ ∃ rid eff2 c2 fr, run.id = some rid ∧
        completionLoop e rid (pollNat a) (c1 + compNat a) (compNat a + 2) eff1 c1 0 run =
          CompResult.done eff2 c2 fr ∧
        fr.status = some "completed" ∧ fr.conclusion = some concl)) :
    (gate a e).code = 1 ∧
    Effect.apiGetRelease ∉ (gate a e).effects ∧
    (∃ st url, (gate a e).stderr =
        [errLine (notSuccessfulMsg ("v" ++ e.currentVersion) st concl url)] ∧
      concl.data <:+: (notSuccessfulMsg ("v" ++ e.currentVersion) st concl url).data ∧
      url.data <:+: (notSuccessfulMsg ("v" ++ e.currentVersion) st concl url).data) := by
  rw [(gate_reaches_fetch a e h1 h2 h3 h4).trans (fetch_reaches_evidence a e tc h5 h6 h7)]
  rcases hcase with ⟨hst, hcl⟩ | ⟨hst, rid, eff2, c2, fr, hid, hcomp, hfst, hfcl⟩
  · have hne : ¬(run.conclusion = some "success") := by
      rw [hcl]
      intro hx
      exact hconcl (Option.some.inj hx)
    have hev : gateEvidence a e ("v" ++ e.currentVersion)
        [bumpLine (beforeVersionOf a e) e.currentVersion] [Effect.gitFetch] =
        failResult [bumpLine (beforeVersionOf a e) e.currentVersion] eff1
          (notSuccessfulMsg ("v" ++ e.currentVersion) (optStr run.status)
            (optStr run.conclusion) (optStr run.html_url)) := by
      simp only [gateEvidence, h8, if_pos hst, concludeRun, if_pos hne]
    rw [hev]
    refine ⟨rfl, ?_, ?_⟩
    · intro hmem
      have hmem1 : Effect.apiGetRelease ∈ (discoveryLoop e ("v" ++ e.currentVersion)
          (pollNat a) (discNat a) (discNat a + 2) [Effect.gitFetch] 0 0).effs := by
        rw [h8]; exact hmem
      have := disc_no_release e ("v" ++ e.currentVersion) (pollNat a) (discNat a)
        (discNat a + 2) 0 0 [Effect.gitFetch] hmem1
      simp at this
    · refine ⟨optStr run.status, optStr run.html_url, ?_, ?_, ?_⟩
      · rw [hcl]
        rfl
      · unfold notSuccessfulMsg
        apply substr_ext
        apply substr_ext
        exact substr_end _ _
      · unfold notSuccessfulMsg
        exact substr_end _ _
  · have hne : ¬(fr.conclusion = some "success") := by
      rw [hfcl]
      intro hx
      exact hconcl (Option.some.inj hx)
    have hev : gateEvidence a e ("v" ++ e.currentVersion)
        [bumpLine (beforeVersionOf a e) e.currentVersion] [Effect.gitFetch] =
        failResult [bumpLine (beforeVersionOf a e) e.currentVersion] eff2
          (notSuccessfulMsg ("v" ++ e.currentVersion) (optStr fr.status)
            (optStr fr.conclusion) (optStr fr.html_url)) := by
      simp only [gateEvidence, h8, if_neg hst, hid, hcomp, if_pos hfst, concludeRun,
        if_pos hne]
    rw [hev]
    refine ⟨rfl, ?_, ?_⟩
    · intro hmem
      have hmem2 : Effect.apiGetRelease ∈ (completionLoop e rid (pollNat a)
          (c1 + compNat a) (compNat a + 2) eff1 c1 0 run).effs := by
        rw [hcomp]; exact hmem
      have hm1 := comp_no_release e rid (pollNat a) (c1 + compNat a) (compNat a + 2)
        c1 0 eff1 run hmem2
      have hmem1 : Effect.apiGetRelease ∈ (discoveryLoop e ("v" ++ e.currentVersion)
          (pollNat a) (discNat a) (discNat a + 2) [Effect.gitFetch] 0 0).effs := by
        rw [h8]; exact hm1
      have := disc_no_release e ("v" ++ e.currentVersion) (pollNat a) (discNat a)
        (discNat a + 2) 0 0 [Effect.gitFetch] hmem1
      simp at this
    · refine ⟨optStr fr.status, optStr fr.html_url, ?_, ?_, ?_⟩
      · rw [hfcl]
        rfl
      · unfold notSuccessfulMsg
        apply substr_ext
        apply substr_ext
        exact substr_end _ _
      · unfold notSuccessfulMsg
        exact substr_end _ _

/-- Closed instance of C3: a run completed with conclusion `failure` fails
the gate and the trace has no release query. -/
theorem c3_witness :
    (gate argsTiny envRunFailed).code = 1 ∧
    Effect.apiGetRelease ∉ (gate argsTiny envRunFailed).effects ∧
    (∃ st url, (gate argsTiny envRunFailed).stderr =
        [errLine (notSuccessfulMsg "v1.2.3" st "failure" url)] ∧
      ("failure").data <:+: (notSuccessfulMsg "v1.2.3" st "failure" url).data ∧
      url.data <:+: (notSuccessfulMsg "v1.2.3" st "failure" url).data) :=
  c3_unsuccessful_run_fails_without_release_query argsTiny envRunFailed rfl (Or.inl rfl)
    (by decide) rfl "abc123" rfl rfl (by decide)
    [Effect.gitFetch, Effect.apiListRuns] 0 runFailed (by decide) "failure" (by decide)
    (Or.inl ⟨rfl, rfl⟩)

/-- C1 as amended: for an applicable invocation whose tag resolves and is an
ancestor of the push head, with a credential present, whose discovered run
is already `completed` with conclusion `success`, and whose release query
answers status exactly 200 with a non-draft record carrying a publication
timestamp, the gate exits 0 and its output line carries both the release
URL and the workflow-run URL. -/
theorem c1_success_evidence_passes (a : Args) (e : Env)
    (h1 : a.eventName = "push")
    (h2 : a.ref = "refs/heads/main" ∨ a.ref = "refs/heads/master")
    (h3 : beforeVersionOf a e ≠ some e.currentVersion)
    (h4 : e.fetchTagsOk = true)
    (tc : String)
    (h5 : e.tagCommit ("v" ++ e.currentVersion) = some tc)
    (h6 : e.isAncestor tc a.after = true)
    (h7 : pyOr e.githubToken (pyOr e.ghToken "") ≠ "")
    (eff1 : List Effect) (c1 : Nat) (run : RunPayload)
    (h8 : discoveryLoop e ("v" ++ e.currentVersion) (pollNat a) (discNat a)
        (discNat a + 2) [Effect.gitFetch] 0 0 = DiscResult.found eff1 c1 run)
    (hst : run.status = some "completed")
    (hcl : run.conclusion = some "success")
    (wUrl : String) (hw : run.html_url = some wUrl)
    (rp : ReleasePayload) (hrel : e.releaseResp = (200, rp))
    (hdraft : rp.draft = false)
    (ts : String) (hpub : rp.published_at = some ts)
    (rUrl : String) (hr : rp.html_url = some rUrl) :
    (gate a e).code = 0 ∧ (gate a e).raised = false ∧
    passMsg ("v" ++ e.currentVersion) rUrl wUrl ∈ (gate a e).stdout ∧
    rUrl.data <:+: (passMsg ("v" ++ e.currentVersion) rUrl wUrl).data ∧
    wUrl.data <:+: (passMsg ("v" ++ e.currentVersion) rUrl wUrl).data := by
  rw [(gate_reaches_fetch a e h1 h2 h3 h4).trans (fetch_reaches_evidence a e tc h5 h6 h7)]
  have hcc : ¬(run.conclusion ≠ some "success") := by rw [hcl]; simp
  have hnd : ¬(rp.draft = true ∨ rp.published_at = none) := by
    rw [hdraft, hpub]
    simp
  have hev : gateEvidence a e ("v" ++ e.currentVersion)
      [bumpLine (beforeVersionOf a e) e.currentVersion] [Effect.gitFetch] =
      passResult ([bumpLine (beforeVersionOf a e) e.currentVersion] ++
          [passMsg ("v" ++ e.currentVersion) (optStr rp.html_url) (optStr run.html_url)])
        (eff1 ++ [Effect.apiGetRelease]) := by
    simp only [gateEvidence, h8, if_pos hst, concludeRun, if_neg hcc, hrel]
    rw [if_neg (by simp : ¬((200 : Nat) ≠ 200)), if_neg hnd]
  rw [hev]
  refine ⟨rfl, rfl, ?_, ?_, ?_⟩
  · rw [hr, hw]
    exact List.mem_append_right _ (List.mem_singleton_self _)
  · unfold passMsg
    apply substr_ext
    apply substr_ext
    exact substr_end _ _
  · unfold passMsg
    exact substr_end _ _

/-- Closed instance of the amended C1: with a 200 published release the gate
passes and prints both URLs. -/
theorem c1_witness :
    (gate argsTiny envBase).code = 0 ∧ (gate argsTiny envBase).raised = false ∧
    passMsg "v1.2.3" "https://github.test/releases/v1.2.3" "https://github.test/runs/7" ∈
      (gate argsTiny envBase).stdout ∧
    ("https://github.test/releases/v1.2.3").data <:+:
      (passMsg "v1.2.3" "https://github.test/releases/v1.2.3" "https://github.test/runs/7").data ∧
    ("https://github.test/runs/7").data <:+:
      (passMsg "v1.2.3" "https://github.test/releases/v1.2.3" "https://github.test/runs/7").data :=
  c1_success_evidence_passes argsTiny envBase rfl (Or.inl rfl) (by decide) rfl
    "abc123" rfl rfl (by decide)
    [Effect.gitFetch, Effect.apiListRuns] 0 runOk (by decide) rfl rfl
    "https://github.test/runs/7" rfl relOk rfl rfl "2025-01-01T00:00:00Z" rfl
    "https://github.test/releases/v1.2.3" rfl

/-- C1 counterexample: the premises of C1 hold with a 2xx release response
(201: in the 2xx class, non-draft, published), the run completed and
successful — yet the gate exits 1 with a "release not found" reason, because
the code accepts only status exactly 200.  The claim's "2xx record" premise
therefore does not yield the passed verdict. -/
theorem c1_counterexample :
    env201.releaseResp.1 = 201 ∧
    200 ≤ env201.releaseResp.1 ∧ env201.releaseResp.1 < 300 ∧
    env201.releaseResp.2.draft = false ∧
    env201.releaseResp.2.published_at = some "2025-01-01T00:00:00Z" ∧
    (gate argsTiny env201).code = 1 ∧
    (gate argsTiny env201).stderr =
      [errLine (releaseNotFoundMsg "v1.2.3" 201 "unknown error")] :=
  ⟨rfl, by decide, by decide, rfl, rfl, rfl, rfl⟩

/-- C2 as amended: for an applicable invocation reaching discovery, if every
run-listing response has status 200 and never contains a run whose head
branch equals the expected tag, the poller terminates in the timeout verdict
(never the fuel sentinel), the failure reason is the timeout message saying
no workflow run was found for the tag within the deadline, and the number of
listing attempts is at most the ceiling of the discovery deadline over the
clamped poll interval, plus one. -/
theorem c2_no_match_bounded_timeout (a : Args) (e : Env)
    (h1 : a.eventName = "push")
    (h2 : a.ref = "refs/heads/main" ∨ a.ref = "refs/heads/master")
    (h3 : beforeVersionOf a e ≠ some e.currentVersion)
    (h4 : e.fetchTagsOk = true)
    (tc : String)
    (h5 : e.tagCommit ("v" ++ e.currentVersion) = some tc)
    (h6 : e.isAncestor tc a.after = true)
    (h7 : pyOr e.githubToken (pyOr e.ghToken "") ≠ "")
    (hok : ∀ j, (e.listRuns j).1 = 200)
    (hno : ∀ j, ((e.listRuns j).2).workflow_runs.find?
      (fun w => w.head_branch == some ("v" ++ e.currentVersion)) = none) :
    (gate a e).code = 1 ∧ (gate a e).raised = false ∧
    (gate a e).stderr =
      [errLine (discTimeoutMsg ("v" ++ e.currentVersion) (discNat a))] ∧
    listCallCount (gate a e).effects ≤
      (discNat a + pollNat a - 1) / pollNat a + 1 ∧
    ("no Release workflow run was found for that tag within ").data <:+:
      (discTimeoutMsg ("v" ++ e.currentVersion) (discNat a)).data := by
  rw [(gate_reaches_fetch a e h1 h2 h3 h4).trans (fetch_reaches_evidence a e tc h5 h6 h7)]
  have hP := pollNat_pos a
  have hfe : (discNat a - 0 + pollNat a - 1) / pollNat a + 1 ≤ discNat a + 2 := by
    rw [Nat.sub_zero]
    exact disc_fuel_enough (discNat a) (pollNat a) hP
  obtain ⟨eff2, c2, heq, hcount⟩ := disc_no_match_times_out e ("v" ++ e.currentVersion)
    (pollNat a) (discNat a) hP hok hno (discNat a + 2) 0 0 [Effect.gitFetch] hfe
  have hev : gateEvidence a e ("v" ++ e.currentVersion)
      [bumpLine (beforeVersionOf a e) e.currentVersion] [Effect.gitFetch] =
      failResult [bumpLine (beforeVersionOf a e) e.currentVersion] eff2
        (discTimeoutMsg ("v" ++ e.currentVersion) (discNat a)) := by
    simp only [gateEvidence, heq]
  rw [hev]
  refine ⟨rfl, rfl, rfl, ?_, ?_⟩
  · rw [Nat.sub_zero] at hcount
    simpa [listCallCount] using hcount
  · unfold discTimeoutMsg
    apply substr_ext
    apply substr_ext
    exact substr_end _ _

/-- Closed instance of the amended C2: with an empty listing forever,
deadline 2 and poll interval 1, the gate times out after at most three
listing attempts with the expected reason. -/
theorem c2_witness :
    (gate argsTiny envNoRuns).code = 1 ∧ (gate argsTiny envNoRuns).raised = false ∧
    (gate argsTiny envNoRuns).stderr = [errLine (discTimeoutMsg "v1.2.3" 2)] ∧
    listCallCount (gate argsTiny envNoRuns).effects ≤ 3 ∧
    ("no Release workflow run was found for that tag within ").data <:+:
      (discTimeoutMsg "v1.2.3" 2).data :=
  c2_no_match_bounded_timeout argsTiny envNoRuns rfl (Or.inl rfl) (by decide) rfl
    "abc123" rfl rfl (by decide) (fun _ => rfl) (fun _ => rfl)

set_option maxRecDepth 8192 in
/-- C2 counterexample: a listing response sequence that never contains a
matching run (the payloads are empty), where the gate nonetheless does not
produce the timeout reason: the first response is an HTTP 500, so the
verdict is the API-error failure after exactly one listing attempt, and its
reason does not say that no workflow run was found within the deadline. -/
theorem c2_counterexample :
    (env500.listRuns 0).2.workflow_runs = [] ∧ (env500.listRuns 0).1 = 500 ∧
    (gate argsTiny env500).code = 1 ∧
    (gate argsTiny env500).stderr = [errLine (listQueryErrMsg 500 "boom")] ∧
    listCallCount (gate argsTiny env500).effects = 1 ∧
    ¬(("no Release workflow run was found for that tag within ").data <:+:
        (listQueryErrMsg 500 "boom").data) :=
  ⟨rfl, rfl, rfl, rfl, rfl, by decide⟩

/-- C8: a non-200 response fails the polling stage at that very attempt, in
both loops: the discovery loop maps a non-200 listing response at any state
directly to the API-error outcome carrying that status code and the
best-effort message, adding exactly one listing request to the trace and
never retrying; the completion loop does the same for a non-200 run fetch
even when its deadline has not yet elapsed. -/
theorem c8_api_error_fails_immediately (e : Env) (tag : String)
    (P dl fuel clock i : Nat) (eff : List Effect) (rid : Nat) (cur : RunPayload) :
    ((e.listRuns i).1 ≠ 200 →
      discoveryLoop e tag P dl (fuel + 1) eff clock i =
        DiscResult.apiError (eff ++ [Effect.apiListRuns]) (clock + e.listDelay i)
          (e.listRuns i).1 (((e.listRuns i).2).message.getD "unknown error")) ∧
    (clock < dl → (e.runResp i).1 ≠ 200 →
      completionLoop e rid P dl (fuel + 1) eff clock i cur =
        CompResult.apiError (eff ++ [Effect.sleep P, Effect.apiGetRun rid])
          (clock + P + e.compSlack i + e.runDelay i)
          (e.runResp i).1 (((e.runResp i).2).message.getD "unknown error")) := by
  constructor
  · intro h
    rw [discoveryLoop]
    simp only [if_pos h]
  · intro hdl h
    rw [completionLoop]
    rw [if_neg (by omega : ¬(dl ≤ clock))]
    simp only [if_pos h]

/-- Closed instance of C8: a 500 from the listing endpoint and a 500 from
the run endpoint each fail their loop on that single attempt. -/
theorem c8_witness :
    discoveryLoop env500 "v1.2.3" 1 2 1 [] 0 0 =
      DiscResult.apiError [Effect.apiListRuns] 0 500 "boom" ∧
    completionLoop envRun500 7 1 2 1 [] 0 0 runInProgress =
      CompResult.apiError [Effect.sleep 1, Effect.apiGetRun 7] 1 500 "kapow" := by
  constructor
  · exact (c8_api_error_fails_immediately env500 "v1.2.3" 1 2 0 0 0 [] 7
      runInProgress).1 (by decide)
  · exact (c8_api_error_fails_immediately envRun500 "v1.2.3" 1 2 0 0 0 [] 7
      runInProgress).2 (by decide) (by decide)

/-- A sleep recorded by the discovery loop has exactly the loop's interval,
unless it was already in the initial trace. -/
theorem disc_sleep (e : Env) (tag : String) (P dl fuel : Nat) (eff : List Effect)
    (clock i d : Nat)
    (h : Effect.sleep d ∈ (discoveryLoop e tag P dl fuel eff clock i).effs) :
    Effect.sleep d ∈ eff ∨ d = P := by
  rcases disc_effs_shape e tag P dl fuel eff clock i (Effect.sleep d) h with h' | h' | h'
  · exact Or.inl h'
  · exact Effect.noConfusion h'
  · exact Or.inr (Effect.sleep.inj h')

/-- A sleep recorded by the completion loop has exactly the loop's interval,
unless it was already in the initial trace. -/
theorem comp_sleep (e : Env) (rid P dl fuel : Nat) (eff : List Effect)
    (clock i : Nat) (cur : RunPayload) (d : Nat)
    (h : Effect.sleep d ∈ (completionLoop e rid P dl fuel eff clock i cur).effs) :
    Effect.sleep d ∈ eff ∨ d = P := by
  rcases comp_effs_shape e rid P dl fuel eff clock i cur (Effect.sleep d) h with h' | h' | h'
  · exact Or.inl h'
  · exact Effect.noConfusion h'
  · exact Or.inr (Effect.sleep.inj h')

/-- The conclusion stage appends at most the single release query to the
trace it receives. -/
theorem concludeRun_effects (e : Env) (tag : String) (out : List String)
    (eff : List Effect) (run : RunPayload) :
    (concludeRun e tag out eff run).effects = eff ∨
    (concludeRun e tag out eff run).effects = eff ++ [Effect.apiGetRelease] := by
  simp only [concludeRun]
  by_cases hc : run.conclusion ≠ some "success"
  · rw [if_pos hc]
    exact Or.inl rfl
  · rw [if_neg hc]
    by_cases h2 : e.releaseResp.1 ≠ 200
    · rw [if_pos h2]
      exact Or.inr rfl
    · rw [if_neg h2]
      by_cases h3 : e.releaseResp.2.draft = true ∨ e.releaseResp.2.published_at = none
      · rw [if_pos h3]
        exact Or.inr rfl
      · rw [if_neg h3]
        exact Or.inr rfl

/-- A sleep is never the release query. -/
theorem sleep_mem_of_release_append (xs : List Effect) (d : Nat)
    (h : Effect.sleep d ∈ xs ++ [Effect.apiGetRelease]) : Effect.sleep d ∈ xs := by
  rcases List.mem_append.mp h with h' | h'
  · exact h'
  · simp at h'

/-- Every sleep in the evidence stage (discovery, completion, conclusion)
lasts exactly the clamped poll interval, provided the incoming trace already
satisfies that. -/
theorem gateEvidence_sleep (a : Args) (e : Env) (tag : String) (out : List String)
    (eff : List Effect)
    (heff : ∀ d, Effect.sleep d ∈ eff → d = pollNat a) :
    ∀ d, Effect.sleep d ∈ (gateEvidence a e tag out eff).effects → d = pollNat a := by
  intro d hd
  simp only [gateEvidence] at hd
  cases hdisc : discoveryLoop e tag (pollNat a) (discNat a) (discNat a + 2) eff 0 0 with
  | fuelOut eff1 c =>
    simp only [hdisc] at hd
    rcases disc_sleep e tag (pollNat a) (discNat a) (discNat a + 2) eff 0 0 d
      (by rw [hdisc]; exact hd) with h | h
    · exact heff d h
    · exact h
  | apiError eff1 c s m =>
    simp only [hdisc] at hd
    rcases disc_sleep e tag (pollNat a) (discNat a) (discNat a + 2) eff 0 0 d
      (by rw [hdisc]; exact hd) with h | h
    · exact heff d h
    · exact h
  | timeout eff1 c =>
    simp only [hdisc] at hd
    rcases disc_sleep e tag (pollNat a) (discNat a) (discNat a + 2) eff 0 0 d
      (by rw [hdisc]; exact hd) with h | h
    · exact heff d h
    · exact h
  | found eff1 c run =>
    simp only [hdisc] at hd
    have hs1 : ∀ d', Effect.sleep d' ∈ eff1 → d' = pollNat a := by
      intro d' hd'
      rcases disc_sleep e tag (pollNat a) (discNat a) (discNat a + 2) eff 0 0 d'
        (by rw [hdisc]; exact hd') with h | h
      · exact heff d' h
      · exact h
    by_cases hst : run.status = some "completed"
    · rw [if_pos hst] at hd
      rcases concludeRun_effects e tag out eff1 run with hce | hce
      · rw [hce] at hd
        exact hs1 d hd
      · rw [hce] at hd
        exact hs1 d (sleep_mem_of_release_append eff1 d hd)
    · rw [if_neg hst] at hd
      cases hid : run.id with
      | none =>
        simp only [hid] at hd
        exact hs1 d hd
      | some rid =>
        simp only [hid] at hd
        cases hcomp : completionLoop e rid (pollNat a) (c + compNat a) (compNat a + 2)
            eff1 c 0 run with
        | fuelOut eff2 c2 =>
          simp only [hcomp] at hd
          rcases comp_sleep e rid (pollNat a) (c + compNat a) (compNat a + 2) eff1 c 0
            run d (by rw [hcomp]; exact hd) with h | h
          · exact hs1 d h
          · exact h
        | apiError eff2 c2 s m =>
          simp only [hcomp] at hd
          rcases comp_sleep e rid (pollNat a) (c + compNat a) (compNat a + 2) eff1 c 0
            run d (by rw [hcomp]; exact hd) with h | h
          · exact hs1 d h
          · exact h
        | done eff2 c2 fr =>
          simp only [hcomp] at hd
          have hs2 : ∀ d', Effect.sleep d' ∈ eff2 → d' = pollNat a := by
            intro d' hd'
            rcases comp_sleep e rid (pollNat a) (c + compNat a) (compNat a + 2) eff1 c 0
              run d' (by rw [hcomp]; exact hd') with h | h
            · exact hs1 d' h
            · exact h
          by_cases hfst : fr.status = some "completed"
          · rw [if_pos hfst] at hd
            rcases concludeRun_effects e tag out eff2 fr with hce | hce
            · rw [hce] at hd
              exact hs2 d hd
            · rw [hce] at hd
              exact hs2 d (sleep_mem_of_release_append eff2 d hd)
          · rw [if_neg hfst] at hd
            exact hs2 d hd

/-- Every sleep after the tag stage lasts exactly the clamped poll
interval. -/
theorem gateAfterFetch_sleep (a : Args) (e : Env) :
    ∀ d, Effect.sleep d ∈ (gateAfterFetch a e).effects → d = pollNat a := by
  intro d hd
  simp only [gateAfterFetch] at hd
  cases htc : e.tagCommit ("v" ++ e.currentVersion) with
  | none =>
    simp only [htc] at hd
    simp [failResult] at hd
  | some tc =>
    simp only [htc] at hd
    by_cases hanc : e.isAncestor tc a.after = true
    · rw [if_pos hanc] at hd
      by_cases htok : pyOr e.githubToken (pyOr e.ghToken "") = ""
      · rw [if_pos htok] at hd
        simp [failResult] at hd
      · rw [if_neg htok] at hd
        refine gateEvidence_sleep a e _ _ _ ?_ d hd
        intro d' hd'
        simp at hd'
    · rw [if_neg hanc] at hd
      simp [failResult] at hd

/-- C9: every sleep the gate ever performs — in the discovery loop and in
the completion loop alike — lasts exactly `max(poll_interval_seconds, 1)`
time units: a configured interval below one is clamped to exactly one, and
the effective interval is always at least one. -/
theorem c9_every_sleep_is_clamped (a : Args) (e : Env) :
    (∀ d, Effect.sleep d ∈ (gate a e).effects →
      d = (max a.pollIntervalSeconds 1).toNat) ∧
    (a.pollIntervalSeconds < 1 → (max a.pollIntervalSeconds 1).toNat = 1) ∧
    1 ≤ (max a.pollIntervalSeconds 1).toNat := by
  refine ⟨?_, ?_, pollNat_pos a⟩
  · intro d hd
    unfold gate at hd
    by_cases happ : a.eventName = "push" ∧
        (a.ref = "refs/heads/main" ∨ a.ref = "refs/heads/master")
    · rw [if_pos happ] at hd
      by_cases hbv : beforeVersionOf a e = some e.currentVersion
      · rw [if_pos hbv] at hd
        simp [passResult] at hd
      · rw [if_neg hbv] at hd
        by_cases hf : e.fetchTagsOk = true
        · rw [if_pos hf] at hd
          exact gateAfterFetch_sleep a e d hd
        · rw [if_neg hf] at hd
          simp at hd
    · rw [if_neg happ] at hd
      simp [passResult] at hd
  · intro h
    have hm : max a.pollIntervalSeconds 1 = 1 := max_eq_right (le_of_lt h)
    rw [hm]
    rfl

/-- Closed instance of C9: with a configured interval of -5 the one sleep
the gate performs lasts exactly one second. -/
theorem c9_witness :
    1 = (max argsNeg.pollIntervalSeconds 1).toNat ∧
    (max argsNeg.pollIntervalSeconds 1).toNat = 1 :=
  ⟨(c9_every_sleep_is_clamped argsNeg envSleepy).1 1 (by decide),
   (c9_every_sleep_is_clamped argsNeg envSleepy).2.1 (by decide)⟩
